import Mathlib

/-!
Shallow embedding of `src/parse.py` (lilcheti/telegram-ads).

The program scrapes channel/bot usernames out of an HTML snapshot with a
regex, resolves each username to a numeric identifier via a search API call,
partitions the resolved identifiers into batches and submits one create-ad
request per batch.

Modelling conventions:
* JSON values returned by the API are modelled by the inductive `Json`;
  a decoded JSON object (Python `dict`) is an association list
  `List (String × Json)` (keys are unique in decoded JSON, lookup is
  first-match).
* Network transport is abstracted as an `Except String` value: `.ok j` is a
  2xx response whose body decodes to `j`, `.error e` is a
  `requests.exceptions.RequestException` with message `e` (raised by the
  send, by `raise_for_status`, or by `.json()`, all subclasses of
  `RequestException`).
* Python runtime exceptions that the code does NOT catch (`KeyError` from
  `response[target]["id"]`, `TypeError` from subscripting a non-dict) are
  modelled by `Except PyError`.
* `time.sleep` calls are counted (the model returns how many sleeps the
  loop performed) since the rate-limiting claims are about which attempts
  are followed by a sleep.
-/

/-- A decoded JSON value (`response.json()`). -/
inductive Json where
  | null : Json
  | bool : Bool → Json
  | num : Int → Json
  | str : String → Json
  | obj : List (String × Json) → Json

/-- First-match lookup in an association list; models Python `d.get(k)` /
`k in d` / `d[k]` on a decoded JSON object (whose keys are unique). -/
def lookupKey {β : Type} : List (String × β) → String → Option β
  | [], _ => none
  | (k, v) :: rest, key => if k = key then some v else lookupKey rest key

/-- The `Config` dataclass (src/parse.py lines 15-28).  Source defaults:
target="channel", batch_size=100, rate_limit_delay=0,
pattern=`\d+-([^">]+)`.  `rate_limit_delay` is a float in the source; the
claims only concern whether a sleep happens, so it is carried as a `Nat`
here and never inspected. -/
structure Config where
  target : String
  hash : String
  cookie : String
  owner_id : String
  batch_size : Nat
  rate_limit_delay : Nat
  pattern : String
  title : String
  text : String
  promote_url : String
  ad_info : String

/-! ## Extractor (`extract_telegram_usernames`, lines 43-47) -/

/-- The fixed blacklist string of line 47:
`.\ =@#$%^&*()+-~/"` followed by backtick, apostrophe, brackets, braces,
`|,<>!?:;`.  (Backtick, apostrophe and braces are written via
`Char.ofNat`.) -/
def blacklist : List Char :=
  ['.', '\\', ' ', '=', '@', '#', '$', '%', '^', '&', '*', '(', ')',
   '+', '-', '~', '/', '"', Char.ofNat 96, Char.ofNat 39, '[', ']',
   Char.ofNat 123, Char.ofNat 125, '|', ',', '<', '>', '!', '?', ':', ';']

/-- `any(char in match for char in blacklist)` on one regex match. -/
def hasBlacklistedChar (m : List Char) : Bool :=
  m.any (fun c => blacklist.contains c)

/-- `extract_telegram_usernames` after `re.findall`: the list comprehension
of line 47, keeping the capture-group rawMatches that contain no blacklisted
character.  `re.findall` itself is abstracted as the `rawMatches` input; for
the default pattern it is realised by `findallDefault` below. -/
def extract_telegram_usernames (rawMatches : List (List Char)) : List (List Char) :=
  rawMatches.filter (fun m => !(hasBlacklistedChar m))

/-- A capture-group character of the default pattern `\d+-([^">]+)`:
anything except `"` and `>`. -/
def capChar (c : Char) : Bool := c != '"' && c != '>'

/-- Try to match the default pattern `\d+-([^">]+)` at the head of `cs`:
one or more digits, a dash, then a maximal nonempty run of `capChar`
characters (the capture group).  Returns the capture and the remainder of
the text after the whole match.  (Backtracking in the regex engine never
helps for this pattern: `\d+` is followed by the non-digit `-`, and the
capture group ends the pattern, so maximal munch is exact.) -/
def matchDefaultAt (cs : List Char) : Option (List Char × List Char) :=
  if (cs.takeWhile Char.isDigit).isEmpty then none
  else
    match cs.dropWhile Char.isDigit with
    | '-' :: rest =>
      if (rest.takeWhile capChar).isEmpty then none
      else some (rest.takeWhile capChar, rest.dropWhile capChar)
    | _ => none

/-- `re.findall` for the default pattern: scan left to right, emit the
capture group of each non-overlapping match, resume after the match, and
advance one character when no match starts here.  Fuelled by the text
length (each step consumes at least one character). -/
def findallDefaultF : Nat → List Char → List (List Char)
  | 0, _ => []
  | _ + 1, [] => []
  | fuel + 1, c :: cs =>
    match matchDefaultAt (c :: cs) with
    | some (cap, rest) => cap :: findallDefaultF fuel rest
    | none => findallDefaultF fuel cs

/-- `re.findall(default pattern, html)`. -/
def findallDefault (html : List Char) : List (List Char) :=
  findallDefaultF html.length html

/-- The whole extractor on raw HTML text with the default pattern
(lines 43-47). -/
def extractFromHtml (html : List Char) : List (List Char) :=
  extract_telegram_usernames (findallDefault html)

/-! ## Resolver (`search_channel` lines 49-65, `process_usernames` lines 107-125) -/

/-- Python runtime exceptions left uncaught by `process_usernames`:
`KeyError` from `d[k]` with a missing key, `TypeError` from subscripting a
non-dict value with a string key. -/
inductive PyError where
  | keyError : String → PyError
  | typeError : PyError

/-- `search_channel` with the HTTP transport abstracted: a successful,
decodable response is passed through as the parsed JSON object; a
`RequestException` (connection failure, non-2xx from `raise_for_status`,
or body decode failure) is caught and turned into
`{"ok": False, "error": str(e)}` (lines 59-65).  The function always
returns — the `except` clause covers every `RequestException`. -/
def search_channel (transport : Except String (List (String × Json))) :
    List (String × Json) :=
  match transport with
  | Except.ok j => j
  | Except.error e => [("ok", Json.bool false), ("error", Json.str e)]

/-- Line 114: `response.get("ok") == False`.  (A missing key gives `None`,
and `None == False` is false in Python, so only an explicit JSON `false`
takes this branch.) -/
def isOkFalse (resp : List (String × Json)) : Bool :=
  match lookupKey resp "ok" with
  | some (Json.bool false) => true
  | _ => false

/-- Lines 118-121 for one response: if the target key is present, evaluate
`response[target]["id"]` — which appends the id on success, raises
`KeyError` when the inner dict lacks `"id"`, and raises `TypeError` when
the value under the target key is not a dict; if the target key is absent,
log a format warning and resolve nothing. -/
def extractId (target : String) (resp : List (String × Json)) :
    Except PyError (Option Json) :=
  match lookupKey resp target with
  | none => Except.ok none
  | some (Json.obj inner) =>
    match lookupKey inner "id" with
    | some v => Except.ok (some v)
    | none => Except.error (PyError.keyError "id")
  | some _ => Except.error PyError.typeError

/-- `process_usernames` (lines 107-125) with the search call abstracted as
`respond` (each username is passed to `search_channel` exactly once, in list
order).  Returns the accumulated `channel_ids` together with the number of
`time.sleep` calls performed, or the first uncaught exception.  Note the
control flow of the loop body: an `ok == False` response hits `continue`
(line 116) BEFORE the `time.sleep` of line 123, so no sleep happens for
that attempt; the other two branches fall through to the sleep. -/
def process_usernames (target : String)
    (respond : String → List (String × Json)) :
    List String → Except PyError (List Json × Nat)
  | [] => Except.ok ([], 0)
  | u :: rest =>
    if isOkFalse (respond u) then
      process_usernames target respond rest
    else
      match extractId target (respond u) with
      | Except.error e => Except.error e
      | Except.ok idOpt =>
        match process_usernames target respond rest with
        | Except.error e => Except.error e
        | Except.ok (ids, s) =>
          Except.ok ((match idOpt with
                      | some v => v :: ids
                      | none => ids), s + 1)

/-- What one resolution attempt contributes to `channel_ids` when the loop
does not raise: nothing on an `ok == False` response or a format mismatch,
the nested id otherwise. -/
def okId (target : String) (resp : List (String × Json)) : Option Json :=
  if isOkFalse resp then none
  else
    match extractId target resp with
    | Except.ok o => o
    | Except.error _ => none

/-! ## Batcher/Submitter (`create_ad` lines 67-105, `process_in_batches`
lines 127-162) -/

/-- `str(int(batch_no/100+1))` of line 73: the number suffixed to the ad
title.  The divisor is the literal `100`, not `config.batch_size`.  (For a
`Nat` offset in the float-exact range, Python `int(i/100+1)` equals
`i / 100 + 1` in truncated/floor arithmetic.) -/
def titleBatchNo (batch_no : Nat) : Nat := batch_no / 100 + 1

/-- The batch index that `process_in_batches` itself reports in its log
messages (lines 142, 156, 159): `i // config.batch_size + 1`. -/
def logBatchIndex (batch_size i : Nat) : Nat := i / batch_size + 1

/-- The form payload built by `create_ad` (lines 71-97): the fixed fields
in source order, then `channels` or `bots` depending on the target type. -/
def createAdData (cfg : Config) (channel_ids : String) (batch_no : Nat) :
    List (String × String) :=
  [("owner_id", cfg.owner_id),
   ("title", cfg.title ++ " " ++ toString (titleBatchNo batch_no)),
   ("text", cfg.text),
   ("promote_url", cfg.promote_url),
   ("website_name", ""),
   ("website_photo", ""),
   ("media", ""),
   ("ad_info", cfg.ad_info),
   ("cpm", "0.1"),
   ("views_per_user", "1"),
   ("budget", "0.1"),
   ("daily_budget", "0"),
   ("active", "1"),
   ("target_type", cfg.target ++ "s"),
   ("langs", ""),
   ("topics", ""),
   ("exclude_topics", ""),
   ("exclude_channels", ""),
   ("method", "createAd")]
  ++ (if cfg.target = "channel"
      then [("channels", channel_ids)]
      else [("bots", channel_ids)])

/-- The transport part of `create_ad` (lines 99-105): identical
catch-and-return shape to `search_channel` — a `RequestException` becomes
`{"ok": False, "error": str(e)}`, never a raised exception. -/
def create_ad_result (transport : Except String (List (String × Json))) :
    List (String × Json) :=
  match transport with
  | Except.ok j => j
  | Except.error e => [("ok", Json.bool false), ("error", Json.str e)]

/-- The slicing loop `for i in range(0, len(ids), bs): ids[i:i+bs]` of
lines 138-139, fuelled by the list length (each step with `bs > 0` consumes
at least one element).  For `bs = 0` the Python `range` raises
`ValueError`; all claims assume a positive batch size. -/
def chunksF {α : Type} (bs : Nat) : Nat → List α → List (List α)
  | 0, _ => []
  | _ + 1, [] => []
  | fuel + 1, l => l.take bs :: chunksF bs fuel (l.drop bs)

/-- The batches `ids[0:bs], ids[bs:2*bs], ...` submitted by
`process_in_batches`. -/
def chunks {α : Type} (bs : Nat) (l : List α) : List (List α) :=
  chunksF bs l.length l

/-- `";".join(map(str, batch))` (line 140); identifiers are taken already
stringified. -/
def joinBatch (batch : List String) : String := String.intercalate ";" batch

/-- One iteration of the submission loop: the starting offset of the chunk, the
joined identifier string posted as the payload, and the (caught) response
of `create_ad`. -/
structure BatchCall where
  offset : Nat
  payload : String
  response : List (String × Json)

/-- The submission loop of `process_in_batches` (lines 138-162) with the
HTTP transport abstracted per call.  The loop body only logs on failure
(`ok` falsy) and sleeps; it contains no `break`, `return` or uncaught
raise (`create_ad` catches every `RequestException`), so every chunk is
submitted whatever the earlier responses were.  Returns the trace of all
create-ad calls in loop order. -/
def process_in_batches (bs : Nat)
    (transport : String → Nat → Except String (List (String × Json)))
    (ids : List String) : List BatchCall :=
  (chunks bs ids).enum.map (fun p =>
    ⟨p.1 * bs, joinBatch p.2,
     create_ad_result (transport (joinBatch p.2) (p.1 * bs))⟩)

/-! ## Concrete instances used by witnesses -/

/-- A concrete mocked search API: username "b" gets an `ok = false` error
response, "c" gets a well-formed response without the target key (format
mismatch), every other username resolves to id 7. -/
def respondEx (u : String) : List (String × Json) :=
  if u = "b" then [("ok", Json.bool false), ("error", Json.str "x")]
  else if u = "c" then [("other", Json.num 1)]
  else [("channel", Json.obj [("id", Json.num 7)])]

/-- A concrete configuration with the default target "channel" and the
default batch size 100. -/
def cfgChan : Config :=
  ⟨"channel", "", "", "owner", 100, 0, "", "T", "", "", ""⟩

/-- A concrete configuration with a NON-default batch size of 50
(target "channel", title "T"). -/
def cfgBS50 : Config :=
  ⟨"channel", "", "", "owner", 50, 0, "", "T", "", "", ""⟩

/-- Keeps the payload fields other than the identifier-list field
(`channels` / `bots`). -/
def nonIdKey (p : String × String) : Bool :=
  p.1 != "channels" && p.1 != "bots"

/-! ## Helper lemmas -/

/-- `chunksF` on the empty list is the empty partition, for any fuel. -/
theorem chunksF_nil {α : Type} (bs fuel : Nat) :
    chunksF bs fuel ([] : List α) = [] := by
  cases fuel <;> rfl

/-- With positive batch size and enough fuel, concatenating the chunks
gives back the original list. -/
theorem chunksF_flatten {α : Type} (bs : Nat) (hbs : 0 < bs) :
    ∀ (fuel : Nat) (l : List α), l.length ≤ fuel →
      (chunksF bs fuel l).flatten = l := by
  intro fuel
  induction fuel with
  | zero =>
    intro l hl
    have hnil : l = [] := List.eq_nil_of_length_eq_zero (Nat.le_zero.mp hl)
    subst hnil; rfl
  | succ n ih =>
    intro l hl
    cases l with
    | nil => rfl
    | cons x xs =>
      show ((x :: xs).take bs :: chunksF bs n ((x :: xs).drop bs)).flatten
          = x :: xs
      rw [List.flatten_cons, ih]
      · exact List.take_append_drop bs (x :: xs)
      · rw [List.length_drop]
        simp only [List.length_cons] at hl ⊢
        omega

/-- Every chunk produced by `chunksF` has at most `bs` elements. -/
theorem chunksF_length_le {α : Type} (bs : Nat) :
    ∀ (fuel : Nat) (l c : List α), c ∈ chunksF bs fuel l → c.length ≤ bs := by
  intro fuel
  induction fuel with
  | zero => intro l c hc; simp [chunksF] at hc
  | succ n ih =>
    intro l c hc
    cases l with
    | nil => simp [chunksF] at hc
    | cons x xs =>
      have heq : chunksF bs (n + 1) (x :: xs)
          = (x :: xs).take bs :: chunksF bs n ((x :: xs).drop bs) := rfl
      rw [heq] at hc
      rcases List.mem_cons.mp hc with h | h
      · subst h; rw [List.length_take]; exact min_le_left _ _
      · exact ih _ _ h

/-- With positive batch size and enough fuel, every chunk except possibly
the last has exactly `bs` elements. -/
theorem chunksF_dropLast_length {α : Type} (bs : Nat) (hbs : 0 < bs) :
    ∀ (fuel : Nat) (l c : List α), l.length ≤ fuel →
      c ∈ (chunksF bs fuel l).dropLast → c.length = bs := by
  intro fuel
  induction fuel with
  | zero => intro l c hl hc; simp [chunksF] at hc
  | succ n ih =>
    intro l c hl hc
    cases l with
    | nil => simp [chunksF] at hc
    | cons x xs =>
      have heq : chunksF bs (n + 1) (x :: xs)
          = (x :: xs).take bs :: chunksF bs n ((x :: xs).drop bs) := rfl
      rw [heq] at hc
      cases ht : chunksF bs n ((x :: xs).drop bs) with
      | nil => rw [ht] at hc; simp at hc
      | cons y ys =>
        rw [ht] at hc
        rw [List.dropLast_cons₂] at hc
        rcases List.mem_cons.mp hc with h | h
        · subst h
          have hdrop : (x :: xs).drop bs ≠ [] := by
            intro hd
            rw [hd, chunksF_nil] at ht
            exact List.noConfusion ht
          have hlen : 0 < ((x :: xs).drop bs).length :=
            List.length_pos.mpr hdrop
          rw [List.length_drop] at hlen
          rw [List.length_take]
          simp only [List.length_cons] at hlen ⊢
          omega
        · rw [← ht] at h
          refine ih _ _ ?_ h
          rw [List.length_drop]
          simp only [List.length_cons] at hl ⊢
          omega

/-- Master lemma for the resolver loop: when `process_usernames` finishes
without raising, the accumulated identifiers are exactly the per-username
contributions in username order, and the loop slept once per username
whose response was not `ok == False` (those hit `continue` before the
sleep). -/
theorem process_usernames_ok_spec (target : String)
    (respond : String → List (String × Json)) :
    ∀ (us : List String) (ids : List Json) (s : Nat),
      process_usernames target respond us = Except.ok (ids, s) →
      ids = us.filterMap (fun u => okId target (respond u)) ∧
      s = (us.filter (fun u => !(isOkFalse (respond u)))).length := by
  intro us
  induction us with
  | nil =>
    intro ids s h
    simp only [process_usernames, Except.ok.injEq, Prod.mk.injEq] at h
    obtain ⟨h1, h2⟩ := h
    subst h1; subst h2
    exact ⟨rfl, rfl⟩
  | cons u rest ih =>
    intro ids s h
    by_cases hb : isOkFalse (respond u)
    · rw [process_usernames, if_pos hb] at h
      rcases ih _ _ h with ⟨e1, e2⟩
      constructor
      · rw [e1, List.filterMap_cons]
        simp [okId, hb]
      · rw [e2, List.filter_cons]
        simp [hb]
    · rw [process_usernames, if_neg hb] at h
      cases hx : extractId target (respond u) with
      | error e => rw [hx] at h; exact absurd h (by simp)
      | ok idOpt =>
        rw [hx] at h
        cases hr : process_usernames target respond rest with
        | error e => rw [hr] at h; exact absurd h (by simp)
        | ok p =>
          obtain ⟨ids0, s0⟩ := p
          rw [hr] at h
          simp only [Except.ok.injEq, Prod.mk.injEq] at h
          obtain ⟨h1, h2⟩ := h
          rcases ih _ _ hr with ⟨e1, e2⟩
          constructor
          · rw [← h1, e1, List.filterMap_cons]
            have hok : okId target (respond u) = idOpt := by
              simp [okId, hb, hx]
            rw [hok]
            cases idOpt <;> simp
          · rw [← h2, e2, List.filter_cons]
            simp [hb]

/-- The payload strings posted by the submission loop are exactly the
semicolon-joined chunks, whatever the transport returns. -/
theorem process_in_batches_payloads (bs : Nat)
    (t : String → Nat → Except String (List (String × Json)))
    (ids : List String) :
    (process_in_batches bs t ids).map BatchCall.payload
      = (chunks bs ids).map joinBatch := by
  simp only [process_in_batches, List.map_map]
  have hcomp : (BatchCall.payload ∘ fun p : Nat × List String =>
      (⟨p.1 * bs, joinBatch p.2,
        create_ad_result (t (joinBatch p.2) (p.1 * bs))⟩ : BatchCall))
      = joinBatch ∘ Prod.snd := rfl
  rw [hcomp, ← List.map_map, List.enum_map_snd]

/-- The offsets visited by the submission loop do not depend on the
transport either. -/
theorem process_in_batches_offsets (bs : Nat)
    (t : String → Nat → Except String (List (String × Json)))
    (ids : List String) :
    (process_in_batches bs t ids).map BatchCall.offset
      = (chunks bs ids).enum.map (fun p => p.1 * bs) := by
  simp only [process_in_batches, List.map_map]
  rfl

/-! ## Claim theorems -/

set_option maxRecDepth 4000

/-- Claim C1 (code bug): the number suffixed to the ad title on line 73 is
`int(batch_no/100+1)` with a hardcoded divisor of `100`, not the configured
batch size.  With batch size 50 and 100 resolved identifiers there are two
chunks, at offsets 0 and 50; the code titles BOTH of them with sequence
number 1 (`titleBatchNo 50 = 1`), while its own log messages
(lines 142/156/159) call the second one batch 2
(`logBatchIndex 50 50 = 2`), contradicting the claimed
one-indexed-offset-over-batch-size numbering. -/
theorem title_batch_number_uses_hardcoded_100 :
    titleBatchNo 50 = 1 ∧
    logBatchIndex cfgBS50.batch_size 50 = 2 ∧
    titleBatchNo 50 ≠ logBatchIndex cfgBS50.batch_size 50 ∧
    lookupKey (createAdData cfgBS50 "1;2" 50) "title" = some "T 1" ∧
    lookupKey (createAdData cfgBS50 "1;2" 0) "title" = some "T 1" ∧
    (chunks cfgBS50.batch_size (List.range 100)).length = 2 :=
  ⟨rfl, rfl, by decide, rfl, rfl, rfl⟩

/-- Claim C2, counterexample: a single username whose search response is
`ok = false` makes the loop hit `continue` on line 116 BEFORE the
`time.sleep` on line 123, so zero sleeps are performed although the claim
demands one sleep for the one (failed) resolution attempt. -/
theorem sleep_skipped_on_ok_false_counterexample :
    process_usernames "channel"
        (fun _ => [("ok", Json.bool false), ("error", Json.str "x")]) ["a"]
      = Except.ok ([], 0) ∧ (0 : Nat) ≠ 1 :=
  ⟨rfl, by decide⟩

/-- Claim C2, amended: when the resolver loop finishes without raising, the
rate-limit sleep is performed exactly once per resolution attempt whose
response does NOT have `ok = false`; attempts whose response has
`ok = false` skip the sleep via `continue`. -/
theorem sleep_after_non_okfalse_attempts (target : String)
    (respond : String → List (String × Json))
    (us : List String) (ids : List Json) (s : Nat)
    (h : process_usernames target respond us = Except.ok (ids, s)) :
    s = (us.filter (fun u => !(isOkFalse (respond u)))).length :=
  (process_usernames_ok_spec target respond us ids s h).2

/-- Witness for the amended claim C2 at a concrete run: usernames "a"
(resolves), "b" (`ok = false`), "c" (format mismatch) produce 2 sleeps —
one for "a", one for "c", none for "b". -/
theorem sleep_after_non_okfalse_attempts_witness :
    (2 : Nat) = ((["a", "b", "c"] : List String).filter
        (fun u => !(isOkFalse (respondEx u)))).length :=
  sleep_after_non_okfalse_attempts "channel" respondEx ["a", "b", "c"]
    [Json.num 7] 2 rfl

/-- Claim C3: extraction returns exactly the capture-group matches of the
pattern, in order of occurrence (a sublist of the raw match list), minus
those containing a blacklisted character; concretely, the default pattern
on `5-alpha">6-beta"` yields `["alpha", "beta"]`, and on `7-bad.name"` the
single raw match `bad.name` is excluded because `.` is blacklisted. -/
theorem extract_usernames_filter_spec :
    (∀ rawMatches : List (List Char),
      extract_telegram_usernames rawMatches
          = rawMatches.filter (fun m => !(hasBlacklistedChar m)) ∧
      (extract_telegram_usernames rawMatches).Sublist rawMatches ∧
      (∀ m, m ∈ extract_telegram_usernames rawMatches ↔
        (m ∈ rawMatches ∧ hasBlacklistedChar m = false))) ∧
    extractFromHtml ("5-alpha\">6-beta\"".data) = ["alpha".data, "beta".data] ∧
    extractFromHtml ("7-bad.name\"".data) = [] ∧
    findallDefault ("7-bad.name\"".data) = ["bad.name".data] ∧
    hasBlacklistedChar ("bad.name".data) = true := by
  refine ⟨?_, by decide, by decide, by decide, by decide⟩
  intro rawMatches
  refine ⟨rfl, List.filter_sublist _, ?_⟩
  intro m
  simp [extract_telegram_usernames, List.mem_filter]

/-- Claim C4: with a positive batch size, the submitter partitions the
identifier list into consecutive chunks whose concatenation is the original
list, every chunk has at most the configured size, every chunk but the last
has exactly the configured size, and 250 identifiers with batch size 100
give chunk sizes [100, 100, 50]. -/
theorem batching_partition_spec :
    (∀ (α : Type) (bs : Nat) (l : List α), 0 < bs →
      (chunks bs l).flatten = l ∧
      (∀ c ∈ chunks bs l, c.length ≤ bs) ∧
      (∀ c ∈ (chunks bs l).dropLast, c.length = bs)) ∧
    (chunks 100 (List.range 250)).map List.length = [100, 100, 50] := by
  constructor
  · intro α bs l hbs
    refine ⟨chunksF_flatten bs hbs l.length l le_rfl, ?_, ?_⟩
    · intro c hc
      exact chunksF_length_le bs l.length l c hc
    · intro c hc
      exact chunksF_dropLast_length bs hbs l.length l c le_rfl hc
  · rfl

/-- Witness for claim C4 at a concrete input: batch size 2 on a five
element list. -/
theorem batching_partition_spec_witness :
    (chunks 2 [0, 1, 2, 3, 4]).flatten = [0, 1, 2, 3, 4] :=
  (batching_partition_spec.1 Nat 2 [0, 1, 2, 3, 4] (by decide)).1

/-- Claim C5: a search response `{"channel": {"id": 42}}` with target type
channel resolves to identifier 42 (with the sleep performed), and a
response `{"ok": false, "error": ...}` — for any error value — resolves to
nothing without raising, leaving the resolved list empty. -/
theorem resolver_success_and_okfalse_cases :
    ∀ (u : String) (err : Json),
      process_usernames "channel"
          (fun _ => [("channel", Json.obj [("id", Json.num 42)])]) [u]
        = Except.ok ([Json.num 42], 1) ∧
      process_usernames "channel"
          (fun _ => [("ok", Json.bool false), ("error", err)]) [u]
        = Except.ok ([], 0) :=
  fun _ _ => ⟨rfl, rfl⟩

/-- Claim C6: when the transport raises a `RequestException` with message
`e`, `search_channel` returns the failure-shaped dict
`{"ok": False, "error": e}` to its caller instead of propagating — the
embedding returns a plain value (not an `Except`), mirroring that the
`except` clause on lines 63-65 covers every `RequestException`. -/
theorem search_channel_catches_transport_errors :
    ∀ e : String,
      search_channel (Except.error e)
          = [("ok", Json.bool false), ("error", Json.str e)] ∧
      lookupKey (search_channel (Except.error e)) "ok"
          = some (Json.bool false) ∧
      lookupKey (search_channel (Except.error e)) "error"
          = some (Json.str e) :=
  fun _ => ⟨rfl, rfl, rfl⟩

/-- Claim C7: when the resolver loop finishes without raising, the resolved
identifiers are exactly the per-username contributions in username
(extraction) order — each username is attempted once, unresolved ones are
dropped without retry — so there are at most as many identifiers as
usernames. -/
theorem process_usernames_order_and_count (target : String)
    (respond : String → List (String × Json))
    (us : List String) (ids : List Json) (s : Nat)
    (h : process_usernames target respond us = Except.ok (ids, s)) :
    ids = us.filterMap (fun u => okId target (respond u)) ∧
    ids.length ≤ us.length := by
  rcases process_usernames_ok_spec target respond us ids s h with ⟨e1, _⟩
  refine ⟨e1, ?_⟩
  rw [e1]
  exact List.length_filterMap_le _ _

/-- Witness for claim C7 at a concrete run: of the usernames "a", "b", "c"
only "a" resolves (to id 7), giving one identifier out of three. -/
theorem process_usernames_order_and_count_witness :
    ([Json.num 7] : List Json)
        = (["a", "b", "c"] : List String).filterMap
            (fun u => okId "channel" (respondEx u)) ∧
    ([Json.num 7] : List Json).length ≤ (["a", "b", "c"] : List String).length :=
  process_usernames_order_and_count "channel" respondEx ["a", "b", "c"]
    [Json.num 7] 2 rfl

/-- Claim C8: for target type channel or bot, the payload field
`target_type` is the pluralized target, the joined identifier string sits
under `channels` (channel) respectively `bots` (bot), and every other
payload field is independent of the identifier string. -/
theorem create_ad_payload_target_fields (cfg : Config) (ids ids2 : String)
    (bno : Nat) (h : cfg.target = "channel" ∨ cfg.target = "bot") :
    lookupKey (createAdData cfg ids bno) "target_type"
        = some (cfg.target ++ "s") ∧
    lookupKey (createAdData cfg ids bno)
        (if cfg.target = "channel" then "channels" else "bots") = some ids ∧
    (createAdData cfg ids bno).filter nonIdKey
        = (createAdData cfg ids2 bno).filter nonIdKey := by
  rcases cfg with ⟨t, f1, f2, f3, f4, f5, f6, f7, f8, f9, f10⟩
  rcases h with h | h <;> subst h <;> exact ⟨rfl, rfl, rfl⟩

/-- Witness for claim C8 at a concrete channel-target configuration. -/
theorem create_ad_payload_target_fields_witness :
    lookupKey (createAdData cfgChan "1;2;3" 0) "target_type"
        = some (cfgChan.target ++ "s") ∧
    lookupKey (createAdData cfgChan "1;2;3" 0)
        (if cfgChan.target = "channel" then "channels" else "bots")
        = some "1;2;3" ∧
    (createAdData cfgChan "1;2;3" 0).filter nonIdKey
        = (createAdData cfgChan "9" 0).filter nonIdKey :=
  create_ad_payload_target_fields cfgChan "1;2;3" "9" 0 (Or.inl rfl)

/-- Claim C9: the submission loop issues one create-ad call per chunk with
the semicolon-joined chunk as payload, and which calls are issued — their
number, payloads and offsets — is identical for ANY two transports, so a
transport error or an `ok = false` response on an earlier batch never
prevents a later batch from being submitted. -/
theorem process_in_batches_submits_every_batch (bs : Nat)
    (t1 t2 : String → Nat → Except String (List (String × Json)))
    (ids : List String) :
    (process_in_batches bs t1 ids).length = (chunks bs ids).length ∧
    (process_in_batches bs t1 ids).map BatchCall.payload
        = (chunks bs ids).map joinBatch ∧
    (process_in_batches bs t1 ids).map BatchCall.payload
        = (process_in_batches bs t2 ids).map BatchCall.payload ∧
    (process_in_batches bs t1 ids).map BatchCall.offset
        = (process_in_batches bs t2 ids).map BatchCall.offset := by
  refine ⟨?_, process_in_batches_payloads bs t1 ids, ?_, ?_⟩
  · simp [process_in_batches]
  · rw [process_in_batches_payloads, process_in_batches_payloads]
  · rw [process_in_batches_offsets, process_in_batches_offsets]

/-- Claim C10 (implicit, confirmed): a response that is not `ok = false`
and contains the target key but no nested `"id"` — such as
`{"channel": {}}` — makes `process_usernames` raise an uncaught `KeyError`
on line 119, aborting the loop so that the remaining usernames (here "b")
are never resolved. -/
theorem process_usernames_raises_on_missing_id :
    process_usernames "channel"
        (fun _ => [("channel", Json.obj [])]) ["a", "b"]
      = Except.error (PyError.keyError "id") ∧
    extractId "channel" [("channel", Json.obj [])]
      = Except.error (PyError.keyError "id") ∧
    isOkFalse [("channel", Json.obj [])] = false :=
  ⟨rfl, rfl, rfl⟩
